import Mathlib

/-!
Shallow embedding of `src/app.py` of RTS-CS/RTSTextBusPredictions.

Time is modelled in seconds as `Nat` (one hour = 3600).  The in-memory
dictionary `request_counts` is modelled as an association list that
preserves Python dict lookup/update semantics.  The upstream HTTP fetch
of `get_prediction` is modelled by an explicit outcome value
(`FetchResult`), so the pure formatting logic of the function can be
stated and proved about; Python exceptions caught by the function are
the `requestError` / `jsonError` constructors.
-/

namespace RTS

/-- One value of the `request_counts` dictionary: `{"count": …, "reset_time": …}`. -/
structure Record where
  count : Nat
  reset_time : Nat
deriving DecidableEq, Repr

/-- The `request_counts` dictionary, as an association list. -/
abbrev State := List (String × Record)

/-- Python dict read: first (unique) binding of the key. -/
def getRecord : State → String → Option Record
  | [], _ => none
  | (u, r) :: rest, uid => if u = uid then some r else getRecord rest uid

/-- Python dict write `d[uid] = r`: replace in place, or append when absent. -/
def setRecord : State → String → Record → State
  | [], uid, r => [(uid, r)]
  | (u, r0) :: rest, uid, r =>
    if u = uid then (uid, r) :: rest else (u, r0) :: setRecord rest uid r

/-- Default of `MESSAGE_LIMIT = int(os.getenv("MESSAGE_LIMIT", 8))` in app.py. -/
def MESSAGE_LIMIT_default : Nat := 8

/-- Embedding of `check_rate_limit` (app.py lines 122-145).  The configured
`MESSAGE_LIMIT` is passed explicitly; the result is the returned Bool
together with the `request_counts` dictionary after the call. -/
def check_rate_limit (MESSAGE_LIMIT : Nat) (user_id : String) (now : Nat)
    (s : State) : Bool × State :=
  if user_id = "+17867868466" then (true, s)
  else
    match getRecord s user_id with
    | none => (true, setRecord s user_id ⟨1, now + 3600⟩)
    | some user_data =>
      if user_data.reset_time < now then
        (true, setRecord s user_id ⟨1, now + 3600⟩)
      else if user_data.count < MESSAGE_LIMIT then
        (true, setRecord s user_id ⟨user_data.count + 1, user_data.reset_time⟩)
      else
        (false, s)

/-- Number of calls in `calls` (pairs of caller identity and call time) that
`check_rate_limit` accepts for identity `uid`, threading the dictionary
through the whole sequence starting from `s`. -/
def acceptedCount (limit : Nat) (uid : String) : State → List (String × Nat) → Nat
  | _, [] => 0
  | s, (u, now) :: rest =>
    let r := check_rate_limit limit u now s
    (if u = uid ∧ r.1 = true then 1 else 0) + acceptedCount limit uid r.2 rest

example : check_rate_limit 8 "+15550001111" 0 [] =
    (true, [("+15550001111", ⟨1, 3600⟩)]) := by decide

example : check_rate_limit 8 "+17867868466" 0 [] = (true, []) := rfl

example : acceptedCount 8 "u" [] (List.replicate 10 ("u", 5)) = 8 := by decide

/-! ## Prediction formatting (`get_prediction`, app.py lines 76-120) -/

/-- One element of `data["bustime-response"]["prd"]`: the fields the code
reads, each possibly absent (Python `prd.get(…)`). -/
structure Prd where
  rt : Option String
  des : Option String
  prdctdn : Option String
deriving DecidableEq, Repr

/-- Outcome of the upstream HTTP fetch inside `get_prediction`'s `try` block:
`success o` is a parsed JSON body whose prediction list is `o` (`none` when
`"bustime-response"`/`"prd"` is missing); `requestError e` is a raised
`requests.RequestException` with message `e`; `jsonError` is a `ValueError`
from `response.json()`. -/
inductive FetchResult where
  | success (prd : Option (List Prd))
  | requestError (e : String)
  | jsonError
deriving DecidableEq, Repr

/-- Python `s.lower()`. -/
def lower (s : String) : String := String.mk (s.data.map Char.toLower)

/-- Normalisation of a nonempty ASCII digit string to its canonical decimal
form: drop leading zeros (keeping a single `"0"` for an all-zero string). -/
def stripLeadingZeros (s : String) : String :=
  let t := s.data.dropWhile (· = '0')
  if t.isEmpty then "0" else String.mk t

/-- Python `str.isspace()` on an ASCII character: space, `\t`, `\n`, `\x0b`,
`\x0c`, `\r` and the separator controls `\x1c`-`\x1f`.  (CPython also
treats various non-ASCII characters as whitespace; those are outside
this embedding's ASCII scope.) -/
def py_isspace (c : Char) : Bool :=
  c.toNat = 32 || (9 ≤ c.toNat && c.toNat ≤ 13) || (28 ≤ c.toNat && c.toNat ≤ 31)

/-- Python `s.strip()` for ASCII strings: drop leading and trailing
whitespace characters (`py_isspace`).  (CPython also strips non-ASCII
Unicode whitespace, outside this embedding's ASCII scope.) -/
def strip (s : String) : String :=
  String.mk (((s.data.dropWhile py_isspace).reverse.dropWhile py_isspace).reverse)

/-- Python `s.isdigit()` for ASCII strings: nonempty and every character an
ASCII digit.  (CPython also accepts non-ASCII Unicode digit characters,
outside this embedding's ASCII scope.) -/
def isdigit (s : String) : Bool :=
  !s.data.isEmpty && s.data.all Char.isDigit

/-- Python `int(s)` succeeds (for ASCII inputs): optional surrounding
whitespace, an optional `+`/`-` sign, then a nonempty run of ASCII
digits.  (CPython additionally accepts non-ASCII Unicode decimal digits
and underscore digit separators; such inputs are outside this
embedding's ASCII scope and no theorem quantifies over them.) -/
def py_int_accepts (s : String) : Bool :=
  match (strip s).data with
  | '+' :: ds => !ds.isEmpty && ds.all Char.isDigit
  | '-' :: ds => !ds.isEmpty && ds.all Char.isDigit
  | ds => !ds.isEmpty && ds.all Char.isDigit

/-- Python `str(int(s))` on an input accepted by `py_int_accepts`: the
canonical decimal form, with `-0` normalised to `0`. -/
def str_int (s : String) : String :=
  match (strip s).data with
  | '+' :: ds => stripLeadingZeros (String.mk ds)
  | '-' :: ds =>
    let m := stripLeadingZeros (String.mk ds)
    if m = "0" then "0" else "-" ++ m
  | ds => stripLeadingZeros (String.mk ds)

example : py_int_accepts "+05" = true ∧ str_int "+05" = "5" := by decide

example : py_int_accepts "x" = false ∧ py_int_accepts "" = false := by decide

example : str_int " -007 " = "-7" ∧ str_int "-000" = "0" := by decide

/-- Python `s.replace(c, r)` for a one-character pattern `c`. -/
def replaceChar (s : String) (c : Char) (r : String) : String :=
  String.join (s.data.map (fun ch => if ch = c then r else String.singleton ch))

/-- The per-prediction f-string of the no-route branch (app.py line 112).
Note the hard-coded English `"in"` even when `lang = "es"`. -/
def sms_line (lang : String) (prd : Prd) : String :=
  let route_label := if lang = "en" then "Route" else "Ruta"
  let minutes_label := if lang = "en" then "minutes" else "minutos"
  let direction := if lang = "en" then "Going toward" else "dirigiéndose a"
  route_label ++ " " ++ prd.rt.getD "N/A" ++ " " ++
    replaceChar (prd.des.getD "N/A") '/' (" " ++ direction ++ " ") ++
    " in " ++ prd.prdctdn.getD "N/A" ++ " " ++ minutes_label

/-- Embedding of `get_prediction` (app.py lines 76-120).  `stop_id` is only
used in the outbound request parameters, never in the returned text, so it
is not a parameter here; the fetch outcome is.  `route_id = some rid` with
`rid ≠ ""` models a truthy Python `route_id`.  In the route branch the
source computes `str(int(route_id))` inside the `try` block: when `int()`
raises `ValueError` (a non-numeric route id), the `except ValueError`
handler returns `"Invalid API response."`. -/
def get_prediction (fetch : FetchResult) (route_id : Option String)
    (lang : String) : String :=
  match fetch with
  | .requestError e => "Network error: " ++ e
  | .jsonError => "Invalid API response."
  | .success none => "No predictions available for this stop."
  | .success (some predictions) =>
    if predictions = [] then "No predictions available for this stop."
    else
      let route_label := if lang = "en" then "Route" else "Ruta"
      let arrives_label := if lang = "en" then "arrives" else "llega"
      let minutes_label := if lang = "en" then "minutes" else "minutos"
      let direction := if lang = "en" then "Going toward" else "dirigiéndose a"
      let no_route := String.intercalate "\n"
        ((predictions.take 3).map (sms_line lang))
      match route_id with
      | none => no_route
      | some rid =>
        if rid = "" then no_route
        else if !py_int_accepts rid then "Invalid API response."
        else
          let route_id_stripped := str_int rid
          let matching := predictions.filter
            (fun prd => lower (prd.rt.getD "") = lower route_id_stripped)
          match matching with
          | [] => "no_prediction"
          | prd :: _ =>
            let destination := prd.des.getD "N/A"
            let arrival_time := prd.prdctdn.getD "N/A"
            if lang = "es" ∧ arrival_time = "Due" then
              route_label ++ " " ++ prd.rt.getD "N/A" ++ " " ++ direction ++
                " |" ++ destination ++ "| llegará en menos de 1 minuto"
            else if lang = "es" then
              route_label ++ " " ++ prd.rt.getD "N/A" ++ " " ++ direction ++
                " |" ++ destination ++ "| " ++ arrives_label ++ " en " ++
                arrival_time ++ " " ++ minutes_label
            else if lang = "en" ∧ arrival_time = "Due" then
              route_label ++ " " ++ prd.rt.getD "N/A" ++ " " ++
                replaceChar destination '/' (" " ++ direction ++ " ") ++ " is Due"
            else
              route_label ++ " " ++ prd.rt.getD "N/A" ++ " " ++
                replaceChar destination '/' (" " ++ direction ++ " ") ++ " " ++
                arrives_label ++ " in " ++ arrival_time ++ " " ++ minutes_label

example : get_prediction (.success (some [⟨some "5", some "Mall/Downtown", some "Due"⟩]))
    (some "05") "en" = "Route 5 Mall Going toward Downtown is Due" := by decide

example : get_prediction (.success (some [⟨some "5", some "Mall/Downtown", some "DUE"⟩]))
    none "en" = "Route 5 Mall Going toward Downtown in DUE minutes" := by decide

/-! ## SMS endpoint (`bot`, app.py lines 147-161) -/

/-- Embedding of the `/bot` SMS handler (app.py lines 147-161).  `Body` and
`From` are the request fields; `fetch` is the outcome the upstream fetch
would have for this request.  The result pairs the text of the single
`response.message(…)` with the `request_counts` dictionary afterwards. -/
def bot (MESSAGE_LIMIT : Nat) (Body From : String) (now : Nat) (s : State)
    (fetch : FetchResult) : String × State :=
  let incoming_msg := strip Body
  if From = "" then ("Error: No sender.", s)
  else
    let res := check_rate_limit MESSAGE_LIMIT From now s
    if res.1 then
      if isdigit incoming_msg ∧ 1 ≤ incoming_msg.length ∧ incoming_msg.length ≤ 4 then
        (get_prediction fetch none "en", res.2)
      else
        ("Send a valid 1-4 digit stop number.", res.2)
    else
      ("You’ve reached the limit of 8 interactions per hour.", res.2)

example : bot 8 " 1234 " "+15550001111" 0 [] .jsonError =
    ("Invalid API response.", [("+15550001111", ⟨1, 3600⟩)]) := by decide

example : bot 8 "STOP" "+15550001111" 0 [] .jsonError =
    ("Send a valid 1-4 digit stop number.", [("+15550001111", ⟨1, 3600⟩)]) := by decide

/-! ## Spec-modelled components absent from `src/app.py` -/

/-- Numeric reading of an arrival token: `some n` exactly when the token is a
nonempty all-digit string with value `n`. -/
def arrivalNat (s : String) : Option Nat :=
  if s.data ≠ [] ∧ s.data.all Char.isDigit then
    some (s.data.foldl (fun n c => 10 * n + (c.toNat - 48)) 0)
  else none

/-- Modelled from the spec: the chat/web formatting mode is not part of
`src/app.py` (only the SMS and voice handlers are).  Per spec §4.3,
"arrivals beyond a 45-minute horizon are suppressed in chat/web contexts":
this is the list of predictions that remain visible in a chat/web reply --
entries whose arrival value is numeric and exceeds 45 are dropped. -/
def webVisiblePredictions (predictions : List Prd) : List Prd :=
  predictions.filter fun p =>
    match arrivalNat (p.prdctdn.getD "N/A") with
    | some n => n ≤ 45
    | none => true

example : webVisiblePredictions
    [⟨some "5", some "A", some "999"⟩, ⟨some "5", some "A", some "12"⟩,
     ⟨some "5", some "A", some "DUE"⟩] =
    [⟨some "5", some "A", some "12"⟩, ⟨some "5", some "A", some "DUE"⟩] := by decide

/-- The exact non-final-page suffix hint of spec §4.4. -/
def MORE_SUFFIX : String := "Reply MORE for next."

/-- Split a character list on a separator character (semantics of Python
`s.split(c)`: `"a b".split(" ") = ["a","b"]`, `"a ".split(" ") = ["a",""]`). -/
def splitOnChar (c : Char) : List Char → List (List Char)
  | [] => [[]]
  | x :: xs =>
    let r := splitOnChar c xs
    if x = c then [] :: r
    else
      match r with
      | [] => [[x]]
      | g :: gs => (x :: g) :: gs

/-- The words of a text, in order (split on the space character). -/
def wordsOf (s : String) : List String := (splitOnChar ' ' s.data).map String.mk

example : wordsOf "ab cd  e" = ["ab", "cd", "", "e"] := by decide

/-- Join words back with single spaces. -/
def joinWords : List String → String
  | [] => ""
  | w :: ws =>
    match ws with
    | [] => w
    | _ :: _ => w ++ " " ++ joinWords ws

/-- Greedy word-boundary chunking: `cur` is the current page's words in
reverse, `len` the length of the current page's core text so far. -/
def chunkGo (budget : Nat) (cur : List String) (len : Nat) :
    List String → List (List String)
  | [] => [cur.reverse]
  | w :: ws =>
    if len + 1 + w.length ≤ budget then
      chunkGo budget (w :: cur) (len + 1 + w.length) ws
    else
      cur.reverse :: chunkGo budget [w] w.length ws

/-- Split a word list into greedy chunks whose joined text fits `budget`. -/
def chunkWords (budget : Nat) : List String → List (List String)
  | [] => []
  | w :: ws => chunkGo budget [w] w.length ws

/-- Python-style `s[:n]` on the characters of a string. -/
def strTake (s : String) (n : Nat) : String := String.mk (s.data.take n)

/-- Render chunks as pages: every non-final page carries the `MORE_SUFFIX`
hint; a final page that still exceeds the limit is truncated with an
ellipsis (the defensive fallback of spec §4.4). -/
def renderPages (limit : Nat) : List (List String) → List String
  | [] => []
  | c :: cs =>
    match cs with
    | [] =>
      let core := joinWords c
      if core.length ≤ limit then [core] else [strTake core (limit - 3) ++ "..."]
    | _ :: _ => (joinWords c ++ " " ++ MORE_SUFFIX) :: renderPages limit cs

/-- Modelled from the spec: `paginate(text, perMessageLimit)` of spec §4.4 is
not part of `src/app.py`.  Splits the text at word boundaries into pages
such that each page, including the non-final-page suffix hint
`"Reply MORE for next."` and the space before it, stays within the limit;
if the whole text already fits, a single page with no suffix. -/
def paginate (text : String) (limit : Nat) : List String :=
  if text.length ≤ limit then [text]
  else renderPages limit (chunkWords (limit - (MORE_SUFFIX.length + 1)) (wordsOf text))

example : paginate "short text" 160 = ["short text"] := by decide

example : paginate "aaaa bbbb cccc" 12 =
    ["aaaa Reply MORE for next.", "bbbb Reply MORE for next.", "cccc"] := by decide

/-! ## Rate limiter lemmas -/

theorem getRecord_setRecord_self (s : State) (uid : String) (r : Record) :
    getRecord (setRecord s uid r) uid = some r := by
  induction s with
  | nil => simp [setRecord, getRecord]
  | cons hd tl ih =>
    obtain ⟨u, r0⟩ := hd
    by_cases h : u = uid
    · simp [setRecord, getRecord, h]
    · simp [setRecord, getRecord, h, ih]

theorem getRecord_setRecord_other (s : State) (u uid : String) (r : Record)
    (h : u ≠ uid) : getRecord (setRecord s u r) uid = getRecord s uid := by
  induction s with
  | nil => simp [setRecord, getRecord, h]
  | cons hd tl ih =>
    obtain ⟨u0, r0⟩ := hd
    by_cases h0 : u0 = u
    · subst h0; simp [setRecord, getRecord, h]
    · simp [setRecord, getRecord, h0, ih]

/-- A call by a different identity never changes `uid`'s record. -/
theorem check_rate_limit_frame (limit : Nat) (u uid : String) (now : Nat)
    (s : State) (h : u ≠ uid) :
    getRecord (check_rate_limit limit u now s).2 uid = getRecord s uid := by
  unfold check_rate_limit
  by_cases he : u = "+17867868466"
  · simp [he]
  · simp only [if_neg he]
    cases hrec : getRecord s u with
    | none => simpa using getRecord_setRecord_other s u uid _ h
    | some r =>
      by_cases h1 : r.reset_time < now
      · simpa [h1] using getRecord_setRecord_other s u uid _ h
      · by_cases h2 : r.count < limit
        · simpa [h1, h2] using getRecord_setRecord_other s u uid _ h
        · simp [h1, h2]

/-- Within the window and at (or above) the limit, the call is rejected and
the dictionary is returned unchanged. -/
theorem check_rate_limit_at_limit (limit : Nat) (uid : String) (now : Nat)
    (s : State) (r : Record) (hu : uid ≠ "+17867868466")
    (hr : getRecord s uid = some r) (hc : limit ≤ r.count)
    (hw : now ≤ r.reset_time) :
    check_rate_limit limit uid now s = (false, s) := by
  unfold check_rate_limit
  simp [hu, hr, Nat.not_lt.mpr hw, Nat.not_lt.mpr hc]

/-- Accepted within-window calls never push the count past the limit: while
`uid`'s record stands at `r` and all of `uid`'s remaining call times are
within the window (`≤ r.reset_time`), at most `limit - r.count` further
calls are accepted. -/
theorem acceptedCount_window_bound (limit : Nat) (uid : String)
    (hu : uid ≠ "+17867868466") :
    ∀ (calls : List (String × Nat)) (s : State) (r : Record),
      getRecord s uid = some r →
      (∀ c ∈ calls, c.1 = uid → c.2 ≤ r.reset_time) →
      acceptedCount limit uid s calls ≤ limit - r.count := by
  intro calls
  induction calls with
  | nil => intro s r _ _; simp [acceptedCount]
  | cons hd tl ih =>
    intro s r hr hw
    obtain ⟨u, now⟩ := hd
    by_cases h : u = uid
    · subst h
      have hnow : now ≤ r.reset_time := hw (u, now) (by simp) rfl
      by_cases hc : r.count < limit
      · -- the call is accepted and the count is incremented
        have hstep : check_rate_limit limit u now s =
            (true, setRecord s u ⟨r.count + 1, r.reset_time⟩) := by
          unfold check_rate_limit
          simp [hu, hr, Nat.not_lt.mpr hnow, hc]
        have hrec' : getRecord (setRecord s u ⟨r.count + 1, r.reset_time⟩) u =
            some ⟨r.count + 1, r.reset_time⟩ := getRecord_setRecord_self ..
        have htl : acceptedCount limit u
            (setRecord s u ⟨r.count + 1, r.reset_time⟩) tl ≤ limit - (r.count + 1) :=
          ih (setRecord s u ⟨r.count + 1, r.reset_time⟩)
            ⟨r.count + 1, r.reset_time⟩ hrec'
            (fun c hc hcu => hw c (by simp [hc]) hcu)
        simp [acceptedCount, hstep]
        omega
      · -- at the limit: rejected, nothing changes
        have hstep : check_rate_limit limit u now s = (false, s) :=
          check_rate_limit_at_limit limit u now s r hu hr (Nat.le_of_not_lt hc) hnow
        have htl := ih s r hr (fun c hc hcu => hw c (by simp [hc]) hcu)
        simp only [acceptedCount, hstep]
        simpa using htl
    · -- a call by someone else leaves uid's record unchanged
      have hrec' : getRecord (check_rate_limit limit u now s).2 uid = some r := by
        rw [check_rate_limit_frame limit u uid now s h]; exact hr
      have htl := ih (check_rate_limit limit u now s).2 r hrec'
        (fun c hc hcu => hw c (by simp [hc]) hcu)
      simp only [acceptedCount]
      simpa [h] using htl

/-! ## Claim C1 -/

/-- C1: for every identity other than the hard-coded exempt identity
`"+17867868466"` (and any configured limit ≥ 1), at most `MESSAGE_LIMIT`
calls to `check_rate_limit` are accepted within the aligned one-hour window
the first call opens (all later call times at most one hour after it), no
matter which other identities call in between; and once the identity's
record stands at the limit with the window not yet expired, the next call
inside the window returns `false`. -/
theorem C1_rate_limit_window_bound (limit : Nat) (uid : String)
    (hu : uid ≠ "+17867868466") (hl : 1 ≤ limit) :
    (∀ (s : State) (t0 : Nat) (calls : List (String × Nat)),
        getRecord s uid = none →
        (∀ c ∈ calls, c.1 = uid → c.2 ≤ t0 + 3600) →
        (check_rate_limit limit uid t0 s).1 = true ∧
        acceptedCount limit uid s ((uid, t0) :: calls) ≤ limit)
    ∧ (∀ (s : State) (r : Record) (now : Nat),
        getRecord s uid = some r → limit ≤ r.count → now ≤ r.reset_time →
        check_rate_limit limit uid now s = (false, s)) := by
  constructor
  · intro s t0 calls hnone hw
    have hstep : check_rate_limit limit uid t0 s =
        (true, setRecord s uid ⟨1, t0 + 3600⟩) := by
      unfold check_rate_limit; simp [hu, hnone]
    have hrec : getRecord (setRecord s uid ⟨1, t0 + 3600⟩) uid =
        some ⟨1, t0 + 3600⟩ := getRecord_setRecord_self ..
    have hb : acceptedCount limit uid (setRecord s uid ⟨1, t0 + 3600⟩) calls ≤
        limit - 1 :=
      acceptedCount_window_bound limit uid hu calls _ ⟨1, t0 + 3600⟩ hrec
        (fun c hc hcu => hw c hc hcu)
    refine ⟨by rw [hstep], ?_⟩
    simp [acceptedCount, hstep]
    omega
  · intro s r now hr hc hwnd
    exact check_rate_limit_at_limit limit uid now s r hu hr hc hwnd

/-- Witness for C1 at limit 8: ten calls by one identity within its first
hour, of which at most 8 are accepted, and a rejected call at the limit. -/
theorem C1_rate_limit_window_bound_witness :
    ((check_rate_limit 8 "+13525550100" 0 []).1 = true ∧
      acceptedCount 8 "+13525550100" []
        (("+13525550100", 0) :: List.replicate 9 ("+13525550100", 10)) ≤ 8) ∧
    check_rate_limit 8 "+13525550100" 100 [("+13525550100", ⟨8, 3600⟩)] =
      (false, [("+13525550100", ⟨8, 3600⟩)]) := by
  refine ⟨(C1_rate_limit_window_bound 8 "+13525550100" (by decide) (by decide)).1
      [] 0 (List.replicate 9 ("+13525550100", 10)) (by decide) (by decide),
    (C1_rate_limit_window_bound 8 "+13525550100" (by decide) (by decide)).2
      [("+13525550100", ⟨8, 3600⟩)] ⟨8, 3600⟩ 100 (by decide) (by decide) (by decide)⟩

/-! ## Claim C4 -/

/-- C4: for a non-exempt identity whose record stands at or above the limit
with the window not expired, `check_rate_limit` returns `false` and the
whole dictionary is returned unchanged — in particular that identity's
record and every other identity's record are untouched. -/
theorem C4_reject_no_mutation (limit : Nat) (uid : String) (now : Nat)
    (s : State) (r : Record) (hu : uid ≠ "+17867868466")
    (hr : getRecord s uid = some r) (hc : limit ≤ r.count)
    (hw : now ≤ r.reset_time) :
    check_rate_limit limit uid now s = (false, s) ∧
    ∀ uid', getRecord (check_rate_limit limit uid now s).2 uid' = getRecord s uid' := by
  have h := check_rate_limit_at_limit limit uid now s r hu hr hc hw
  exact ⟨h, fun uid' => by rw [h]⟩

/-- Witness for C4: a two-identity dictionary with one identity at the limit;
the rejected call leaves both records as they were. -/
theorem C4_reject_no_mutation_witness :
    check_rate_limit 8 "+13525550104" 3600
        [("+13525550199", ⟨2, 9999⟩), ("+13525550104", ⟨8, 3600⟩)] =
      (false, [("+13525550199", ⟨2, 9999⟩), ("+13525550104", ⟨8, 3600⟩)]) ∧
    ∀ uid', getRecord (check_rate_limit 8 "+13525550104" 3600
        [("+13525550199", ⟨2, 9999⟩), ("+13525550104", ⟨8, 3600⟩)]).2 uid' =
      getRecord [("+13525550199", ⟨2, 9999⟩), ("+13525550104", ⟨8, 3600⟩)] uid' :=
  C4_reject_no_mutation 8 "+13525550104" 3600
    [("+13525550199", ⟨2, 9999⟩), ("+13525550104", ⟨8, 3600⟩)] ⟨8, 3600⟩
    (by decide) (by decide) (by decide) (by decide)

/-! ## Claim C5 -/

/-- C5: for a non-exempt identity, a first-ever call, or any call strictly
after the identity's window expiry, returns `true` and re-initialises the
record to count 1 with expiry one hour after the call — in particular an
identity denied at the limit is allowed again once the boundary passes. -/
theorem C5_window_start (limit : Nat) (uid : String) (now : Nat) (s : State)
    (hu : uid ≠ "+17867868466")
    (h : getRecord s uid = none ∨
      ∃ r, getRecord s uid = some r ∧ r.reset_time < now) :
    (check_rate_limit limit uid now s).1 = true ∧
    getRecord (check_rate_limit limit uid now s).2 uid = some ⟨1, now + 3600⟩ := by
  rcases h with hnone | ⟨r, hr, hlt⟩
  · have hstep : check_rate_limit limit uid now s =
        (true, setRecord s uid ⟨1, now + 3600⟩) := by
      unfold check_rate_limit; simp [hu, hnone]
    rw [hstep]
    exact ⟨rfl, getRecord_setRecord_self ..⟩
  · have hstep : check_rate_limit limit uid now s =
        (true, setRecord s uid ⟨1, now + 3600⟩) := by
      unfold check_rate_limit; simp [hu, hr, hlt]
    rw [hstep]
    exact ⟨rfl, getRecord_setRecord_self ..⟩

/-- Witness for C5: an identity denied at count 8 is allowed again one second
after its window expiry, with its record reset to count 1. -/
theorem C5_window_start_witness :
    (check_rate_limit 8 "+13525550105" 51 [("+13525550105", ⟨8, 50⟩)]).1 = true ∧
    getRecord (check_rate_limit 8 "+13525550105" 51
        [("+13525550105", ⟨8, 50⟩)]).2 "+13525550105" = some ⟨1, 3651⟩ :=
  C5_window_start 8 "+13525550105" 51 [("+13525550105", ⟨8, 50⟩)] (by decide)
    (Or.inr ⟨⟨8, 50⟩, by decide, by decide⟩)

/-! ## Claim C2 -/

/-- C2 counterexample: the `/bot` handler has no keyword vocabulary at all.
An inbound body `"STOP"` (and likewise `"MORE"`) does not trigger an
opt-out (or pagination): it receives exactly the same invalid-input reply
as a gibberish body, and the only state change is the rate-limit count. -/
theorem C2_counterexample :
    bot 8 "STOP" "+13525550101" 0 [] .jsonError =
      ("Send a valid 1-4 digit stop number.", [("+13525550101", ⟨1, 3600⟩)]) ∧
    bot 8 "MORE" "+13525550101" 0 [] .jsonError =
      ("Send a valid 1-4 digit stop number.", [("+13525550101", ⟨1, 3600⟩)]) ∧
    bot 8 "xyzzy" "+13525550101" 0 [] .jsonError =
      ("Send a valid 1-4 digit stop number.", [("+13525550101", ⟨1, 3600⟩)]) := by
  refine ⟨by decide, by decide, by decide⟩

/-- C2 amended: for every inbound SMS body of ASCII characters
(whitespace-stripped) from an identified sender within the rate limit,
the handler is a two-way dispatch on the stop-number validation alone: a
body whose stripped form is a bare 1-4 digit numeric string triggers a
stop-ID prediction query, and EVERY other body — in particular each of
the keywords STOP/UNSUBSCRIBE/END/CANCEL/QUIT/START/YES/MORE in any
letter case — yields the invalid-input message; no opt-out, opt-in or
pagination handling exists in the handler.  (The ASCII restriction
scopes the embedding: CPython's `str.isdigit`/`str.strip` additionally
treat some non-ASCII characters as digits/whitespace.) -/
theorem C2_amended_no_keyword_vocabulary (limit : Nat) (From : String)
    (now : Nat) (s : State) (fetch : FetchResult) (hf : From ≠ "")
    (hok : (check_rate_limit limit From now s).1 = true) :
    (∀ Body : String, (∀ c ∈ Body.data, c.toNat < 128) →
      ¬(isdigit (strip Body) ∧ 1 ≤ (strip Body).length ∧ (strip Body).length ≤ 4) →
      bot limit Body From now s fetch =
        ("Send a valid 1-4 digit stop number.",
          (check_rate_limit limit From now s).2)) ∧
    (∀ Body : String, (∀ c ∈ Body.data, c.toNat < 128) →
      isdigit (strip Body) → 1 ≤ (strip Body).length → (strip Body).length ≤ 4 →
      bot limit Body From now s fetch =
        (get_prediction fetch none "en", (check_rate_limit limit From now s).2)) ∧
    (∀ Body ∈ ["STOP", "UNSUBSCRIBE", "END", "CANCEL", "QUIT",
        "START", "YES", "MORE", "stop", "More"],
      bot limit Body From now s fetch =
        ("Send a valid 1-4 digit stop number.",
          (check_rate_limit limit From now s).2)) := by
  have main : ∀ Body : String,
      ¬(isdigit (strip Body) ∧ 1 ≤ (strip Body).length ∧ (strip Body).length ≤ 4) →
      bot limit Body From now s fetch =
        ("Send a valid 1-4 digit stop number.",
          (check_rate_limit limit From now s).2) := by
    intro Body h
    unfold bot
    rw [if_neg hf, if_pos hok, if_neg h]
  refine ⟨fun Body _ h => main Body h, ?_, ?_⟩
  · intro Body _ h1 h2 h3
    unfold bot
    rw [if_neg hf, if_pos hok, if_pos ⟨h1, h2, h3⟩]
  · intro Body hBody
    fin_cases hBody <;> exact main _ (by decide)

/-- Witness for C2 amended: a fresh sender within the limit, with a keyword
body, a gibberish body and a digit body. -/
theorem C2_amended_no_keyword_vocabulary_witness :
    bot 8 "UNSUBSCRIBE" "+13525550102" 0 [] .jsonError =
      ("Send a valid 1-4 digit stop number.",
        (check_rate_limit 8 "+13525550102" 0 []).2) ∧
    bot 8 "hello?" "+13525550102" 0 [] .jsonError =
      ("Send a valid 1-4 digit stop number.",
        (check_rate_limit 8 "+13525550102" 0 []).2) ∧
    bot 8 " 1234 " "+13525550102" 0 [] .jsonError =
      (get_prediction .jsonError none "en",
        (check_rate_limit 8 "+13525550102" 0 []).2) :=
  ⟨(C2_amended_no_keyword_vocabulary 8 "+13525550102" 0 [] .jsonError
      (by decide) (by decide)).2.2 "UNSUBSCRIBE" (by simp),
   (C2_amended_no_keyword_vocabulary 8 "+13525550102" 0 [] .jsonError
      (by decide) (by decide)).1 "hello?" (by decide) (by decide),
   (C2_amended_no_keyword_vocabulary 8 "+13525550102" 0 [] .jsonError
      (by decide) (by decide)).2.1 " 1234 " (by decide) (by decide) (by decide)
      (by decide)⟩

/-! ## Claim C3 -/

/-- C3 counterexample: an opt-out keyword does NOT always succeed.  From a
sender whose record already stands at the limit inside the window, the
body `"STOP"` receives the rate-limit message, no opt-out is recorded
(there is no opt-out state at all), and from a sender within the limit it
receives the invalid-input message rather than an opt-out acknowledgement. -/
theorem C3_counterexample :
    bot 8 "STOP" "+13525550103" 100 [("+13525550103", ⟨8, 3600⟩)] .jsonError =
      ("You’ve reached the limit of 8 interactions per hour.",
        [("+13525550103", ⟨8, 3600⟩)]) := by
  decide

/-- C3 amended: there is no opt-out handling in the `/bot` handler.  A
`"STOP"` body is subject to the rate limit like any other message: when
the rate limit blocks the sender it yields the rate-limit message, and
otherwise it yields the invalid-input message; in both cases the only
state is the rate-limit dictionary updated by `check_rate_limit`, so no
opt-out is ever recorded and later messages are unaffected by a prior
`"STOP"`. -/
theorem C3_amended_no_opt_out (limit : Nat) (From : String) (now : Nat)
    (s : State) (fetch : FetchResult) (hf : From ≠ "") :
    bot limit "STOP" From now s fetch =
      (if (check_rate_limit limit From now s).1 then
        "Send a valid 1-4 digit stop number."
      else "You’ve reached the limit of 8 interactions per hour.",
      (check_rate_limit limit From now s).2) := by
  unfold bot
  rw [if_neg hf]
  by_cases hok : (check_rate_limit limit From now s).1
  · rw [if_pos hok, if_neg (by decide), if_pos hok]
  · rw [if_neg hok, if_neg hok]

/-- Witness for C3 amended: a sender at the limit sending `"STOP"`. -/
theorem C3_amended_no_opt_out_witness :
    bot 8 "STOP" "+13525550106" 100 [("+13525550106", ⟨8, 3600⟩)] .jsonError =
      (if (check_rate_limit 8 "+13525550106" 100
          [("+13525550106", ⟨8, 3600⟩)]).1 then
        "Send a valid 1-4 digit stop number."
      else "You’ve reached the limit of 8 interactions per hour.",
      (check_rate_limit 8 "+13525550106" 100 [("+13525550106", ⟨8, 3600⟩)]).2) :=
  C3_amended_no_opt_out 8 "+13525550106" 100 [("+13525550106", ⟨8, 3600⟩)]
    .jsonError (by decide)

/-! ## Claim C6 -/

/-- C6 counterexample: an arrival value of `"DUE"` does NOT render a due-now
phrase in every mode.  In the multi-prediction (no-route) output there is
no due special-case at all, so the reply reads `"… in DUE minutes"`; and
even the single-route branch compares against `"Due"` case-sensitively, so
`"DUE"` renders as `"… arrives in DUE minutes"` there too. -/
theorem C6_counterexample :
    get_prediction (.success (some [⟨some "5", some "Mall/Downtown", some "DUE"⟩]))
        none "en" = "Route 5 Mall Going toward Downtown in DUE minutes" ∧
    get_prediction (.success (some [⟨some "5", some "Mall/Downtown", some "DUE"⟩]))
        (some "5") "en" =
      "Route 5 Mall Going toward Downtown arrives in DUE minutes" := by
  refine ⟨by decide, by decide⟩

example : get_prediction (.success (some [⟨some "5", some "A", some "Due"⟩]))
    (some "x") "en" = "Invalid API response." := by decide

/-- C6 amended: the due-now phrase is rendered only in the single-route
branch, only for a route id accepted by `int()` (a non-numeric route id
falls into the caught-`ValueError` reply `"Invalid API response."`), and
only for an arrival value exactly `"Due"` (case-sensitive): there the
English output ends in `"is Due"` and the Spanish output in
`"llegará en menos de 1 minuto"`, with no minutes suffix; the
multi-prediction (no-route) output has no due special-case and always
appends the minutes suffix to the arrival token. -/
theorem C6_amended_due_phrase_single_route_only (rt des rid : String)
    (hrid : rid ≠ "") (hnum : py_int_accepts rid = true)
    (hmatch : lower rt = lower (str_int rid)) :
    get_prediction (.success (some [⟨some rt, some des, some "Due"⟩]))
        (some rid) "en" =
      "Route " ++ rt ++ " " ++ replaceChar des '/' " Going toward " ++ " is Due" ∧
    get_prediction (.success (some [⟨some rt, some des, some "Due"⟩]))
        (some rid) "es" =
      "Ruta " ++ rt ++ " dirigiéndose a |" ++ des ++
        "| llegará en menos de 1 minuto" ∧
    get_prediction (.success (some [⟨some rt, some des, some "Due"⟩])) none "en" =
      "Route " ++ rt ++ " " ++ replaceChar des '/' " Going toward " ++
        " in Due minutes" := by
  refine ⟨?_, ?_, ?_⟩
  · simp [get_prediction, hrid, hnum, List.filter, hmatch]
  · simp [get_prediction, hrid, hnum, List.filter, hmatch, String.append_assoc]
  · simp [get_prediction, sms_line, String.intercalate, String.intercalate.go,
      String.append_assoc]

/-- Witness for C6 amended: route `"05"` (accepted by `int()` and normalised
to `"5"`) matching `rt = "5"` with destination `"Mall/Downtown"`. -/
theorem C6_amended_due_phrase_single_route_only_witness :
    get_prediction (.success (some [⟨some "5", some "Mall/Downtown", some "Due"⟩]))
        (some "05") "en" =
      "Route " ++ "5" ++ " " ++ replaceChar "Mall/Downtown" '/' " Going toward " ++
        " is Due" ∧
    get_prediction (.success (some [⟨some "5", some "Mall/Downtown", some "Due"⟩]))
        (some "05") "es" =
      "Ruta " ++ "5" ++ " dirigiéndose a |" ++ "Mall/Downtown" ++
        "| llegará en menos de 1 minuto" ∧
    get_prediction (.success (some [⟨some "5", some "Mall/Downtown", some "Due"⟩]))
        none "en" =
      "Route " ++ "5" ++ " " ++ replaceChar "Mall/Downtown" '/' " Going toward " ++
        " in Due minutes" :=
  C6_amended_due_phrase_single_route_only "5" "Mall/Downtown" "05" (by decide)
    (by decide) (by decide)

/-! ## Claim C7 -/

/-- C7: an entry whose arrival value is numeric and exceeds 45 minutes is
suppressed entirely from the (spec-modelled) chat/web visible list, while
the SMS no-route output of `src/app.py` includes it with the minutes
suffix — e.g. arrival `"999"` is absent from the web list and rendered as
`"… in 999 minutes"` by the SMS formatter. -/
theorem C7_45_minute_horizon_asymmetry :
    (∀ (prds : List Prd) (p : Prd) (n : Nat), p ∈ prds →
      arrivalNat (p.prdctdn.getD "N/A") = some n → 45 < n →
      p ∉ webVisiblePredictions prds) ∧
    (∀ rt des : String,
      get_prediction (.success (some [⟨some rt, some des, some "999"⟩])) none "en" =
        "Route " ++ rt ++ " " ++ replaceChar des '/' " Going toward " ++
          " in 999 minutes") := by
  constructor
  · intro prds p n _ hn h45
    have hpred : (match arrivalNat (p.prdctdn.getD "N/A") with
        | some n => decide (n ≤ 45)
        | none => true) = false := by
      rw [hn]; simpa using h45
    simp only [webVisiblePredictions, List.mem_filter]
    intro hmem
    rw [hpred] at hmem
    exact absurd hmem.2 (by simp)
  · intro rt des
    simp [get_prediction, sms_line, String.intercalate, String.intercalate.go,
      String.append_assoc]

/-- Witness for C7: the concrete `"999"` prediction is suppressed from the
web-visible list built from a two-entry upstream response. -/
theorem C7_45_minute_horizon_asymmetry_witness :
    (⟨some "5", some "Downtown", some "999"⟩ : Prd) ∉
      webVisiblePredictions
        [⟨some "5", some "Downtown", some "999"⟩, ⟨some "8", some "Mall", some "12"⟩] ∧
    get_prediction
        (.success (some [⟨some "5", some "Downtown", some "999"⟩])) none "en" =
      "Route " ++ "5" ++ " " ++ replaceChar "Downtown" '/' " Going toward " ++
        " in 999 minutes" :=
  ⟨C7_45_minute_horizon_asymmetry.1
      [⟨some "5", some "Downtown", some "999"⟩, ⟨some "8", some "Mall", some "12"⟩]
      ⟨some "5", some "Downtown", some "999"⟩ 999 (by decide) (by decide) (by decide),
    C7_45_minute_horizon_asymmetry.2 "5" "Downtown"⟩

/-! ## Claim C8 -/

/-- Boolean substring test on character lists. -/
def listContains (sub : List Char) : List Char → Bool
  | [] => sub.isEmpty
  | x :: xs => sub.isPrefixOf (x :: xs) || listContains sub xs

/-- C8 counterexample: on a network failure `get_prediction` does not return
a generic "network error, try again" text.  The reply echoes the exception
message — two different failures produce two different replies — and the
words "try again" appear nowhere in it. -/
theorem C8_counterexample :
    get_prediction (.requestError "timeout") none "en" = "Network error: timeout" ∧
    get_prediction (.requestError "connection refused") none "en" =
      "Network error: connection refused" ∧
    listContains "try again".data "Network error: timeout".data = false ∧
    "Network error: timeout" ≠ "Network error: connection refused" := by
  refine ⟨rfl, rfl, by decide, by decide⟩

/-- C8 amended: `get_prediction` is a total function of the fetch outcome —
no upstream failure propagates.  A raised request exception with message
`e` (network failure or non-2xx status) yields exactly
`"Network error: " ++ e`, and a malformed/non-JSON upstream body yields
exactly `"Invalid API response."`, for every route argument and language. -/
theorem C8_amended_error_texts (e : String) (route_id : Option String)
    (lang : String) :
    get_prediction (.requestError e) route_id lang = "Network error: " ++ e ∧
    get_prediction .jsonError route_id lang = "Invalid API response." :=
  ⟨rfl, rfl⟩

/-! ## Claim C10 -/

/-- C10: the SMS no-route reply is built from the first three predictions of
the upstream response only, in upstream order: appending any further
predictions after the first three leaves the reply unchanged, and for a
three-element response the reply is exactly the three formatted lines
joined by newlines. -/
theorem C10_sms_first_three_only (ps rest : List Prd) (lang : String)
    (h : ps.length = 3) :
    get_prediction (.success (some (ps ++ rest))) none lang =
      get_prediction (.success (some ps)) none lang ∧
    get_prediction (.success (some ps)) none lang =
      String.intercalate "\n" (ps.map (sms_line lang)) := by
  have hne : ps ≠ [] := by
    intro hnil; rw [hnil] at h; simp at h
  have hne2 : ps ++ rest ≠ [] := by
    simp [hne]
  have htake : (ps ++ rest).take 3 = ps := by
    rw [← h]; exact List.take_left ps rest
  have htake2 : ps.take 3 = ps := by
    conv_lhs => rw [← h]
    exact List.take_length ps
  constructor
  · simp [get_prediction, hne, hne2, htake, htake2]
  · simp [get_prediction, hne, htake2]

/-- Witness for C10: a five-prediction upstream response gives the same reply
as its first three predictions alone. -/
theorem C10_sms_first_three_only_witness :
    get_prediction (.success (some
        ([⟨some "1", some "A", some "5"⟩, ⟨some "2", some "B", some "7"⟩,
          ⟨some "3", some "C", some "9"⟩] ++
         [⟨some "4", some "D", some "11"⟩, ⟨some "5", some "E", some "13"⟩])))
        none "en" =
      get_prediction (.success (some
        [⟨some "1", some "A", some "5"⟩, ⟨some "2", some "B", some "7"⟩,
         ⟨some "3", some "C", some "9"⟩])) none "en" ∧
    get_prediction (.success (some
        [⟨some "1", some "A", some "5"⟩, ⟨some "2", some "B", some "7"⟩,
         ⟨some "3", some "C", some "9"⟩])) none "en" =
      String.intercalate "\n"
        ([⟨some "1", some "A", some "5"⟩, ⟨some "2", some "B", some "7"⟩,
          ⟨some "3", some "C", some "9"⟩].map (sms_line "en")) :=
  C10_sms_first_three_only
    [⟨some "1", some "A", some "5"⟩, ⟨some "2", some "B", some "7"⟩,
     ⟨some "3", some "C", some "9"⟩]
    [⟨some "4", some "D", some "11"⟩, ⟨some "5", some "E", some "13"⟩]
    "en" (by decide)

/-! ## Pagination lemmas (for C9) -/

theorem joinWords_append_singleton (xs : List String) (w : String) (h : xs ≠ []) :
    joinWords (xs ++ [w]) = joinWords xs ++ " " ++ w := by
  induction xs with
  | nil => exact absurd rfl h
  | cons x xs ih =>
    cases xs with
    | nil => simp [joinWords]
    | cons y ys =>
      have e1 : (x :: y :: ys) ++ [w] = x :: ((y :: ys) ++ [w]) := rfl
      have e2 : joinWords (x :: ((y :: ys) ++ [w])) =
          x ++ " " ++ joinWords ((y :: ys) ++ [w]) := rfl
      have e3 : joinWords (x :: y :: ys) = x ++ " " ++ joinWords (y :: ys) := rfl
      rw [e1, e2, e3, ih (by simp)]
      simp [String.append_assoc]

theorem chunkGo_flatten (budget : Nat) :
    ∀ (ws : List String) (cur : List String) (len : Nat),
      (chunkGo budget cur len ws).flatten = cur.reverse ++ ws := by
  intro ws
  induction ws with
  | nil => intro cur len; simp [chunkGo]
  | cons w ws ih =>
    intro cur len
    unfold chunkGo
    by_cases hfit : len + 1 + w.length ≤ budget
    · rw [if_pos hfit, ih]
      simp
    · rw [if_neg hfit]
      simp [ih]

theorem chunkWords_flatten (budget : Nat) (ws : List String) :
    (chunkWords budget ws).flatten = ws := by
  cases ws with
  | nil => rfl
  | cons w ws => simpa using chunkGo_flatten budget ws [w] w.length

theorem chunkGo_core_bound (budget : Nat) :
    ∀ (ws : List String) (cur : List String) (len : Nat),
      cur ≠ [] → len = (joinWords cur.reverse).length → len ≤ budget →
      (∀ w ∈ ws, w.length ≤ budget) →
      ∀ c ∈ chunkGo budget cur len ws, (joinWords c).length ≤ budget := by
  intro ws
  induction ws with
  | nil =>
    intro cur len _ hlen hbud _ c hc
    simp only [chunkGo, List.mem_singleton] at hc
    subst hc; omega
  | cons w ws ih =>
    intro cur len hcur hlen hbud hws c hc
    unfold chunkGo at hc
    by_cases hfit : len + 1 + w.length ≤ budget
    · rw [if_pos hfit] at hc
      refine ih (w :: cur) (len + 1 + w.length) (by simp) ?_ hfit
        (fun v hv => hws v (by simp [hv])) c hc
      rw [List.reverse_cons, joinWords_append_singleton _ _ (by simpa using hcur)]
      rw [String.length_append, String.length_append, ← hlen]
      rfl
    · rw [if_neg hfit] at hc
      rcases List.mem_cons.mp hc with hc1 | hc2
      · subst hc1; omega
      · exact ih [w] w.length (by simp) (by simp [joinWords])
          (hws w (by simp)) (fun v hv => hws v (by simp [hv])) c hc2

theorem chunkWords_core_bound (budget : Nat) (ws : List String)
    (hws : ∀ w ∈ ws, w.length ≤ budget) :
    ∀ c ∈ chunkWords budget ws, (joinWords c).length ≤ budget := by
  cases ws with
  | nil => intro c hc; simp [chunkWords] at hc
  | cons w ws =>
    exact chunkGo_core_bound budget ws [w] w.length (by simp)
      (by simp [joinWords]) (hws w (by simp)) (fun v hv => hws v (by simp [hv]))

theorem MORE_SUFFIX_length : MORE_SUFFIX.length = 20 := by decide

theorem renderPages_page_length (limit : Nat) (hlim : 21 ≤ limit) :
    ∀ (cs : List (List String)),
      (∀ c ∈ cs, (joinWords c).length ≤ limit - 21) →
      ∀ p ∈ renderPages limit cs, p.length ≤ limit := by
  intro cs
  induction cs with
  | nil => intro _ p hp; simp [renderPages] at hp
  | cons c cs ih =>
    intro hcs p hp
    cases cs with
    | nil =>
      have hc := hcs c (by simp)
      simp only [renderPages] at hp
      rw [if_pos (by omega)] at hp
      simp only [List.mem_singleton] at hp
      subst hp; omega
    | cons c' cs' =>
      simp only [renderPages, List.mem_cons] at hp
      rcases hp with hp1 | hp2
      · subst hp1
        have hc := hcs c (by simp)
        rw [String.length_append, String.length_append, MORE_SUFFIX_length]
        have : (" " : String).length = 1 := rfl
        omega
      · exact ih (fun d hd => hcs d (by simp [hd])) p hp2

theorem renderPages_nonfinal_suffix (limit : Nat) :
    ∀ (cs : List (List String)) (i : Nat) (p : String),
      i + 1 < (renderPages limit cs).length →
      (renderPages limit cs)[i]? = some p →
      ∃ pre, p = pre ++ MORE_SUFFIX := by
  intro cs
  induction cs with
  | nil => intro i p h _; simp [renderPages] at h
  | cons c cs ih =>
    intro i p h hp
    cases cs with
    | nil =>
      simp only [renderPages] at h
      by_cases hc : (joinWords c).length ≤ limit
      · rw [if_pos hc] at h; simp at h
      · rw [if_neg hc] at h; simp at h
    | cons c' cs' =>
      simp only [renderPages] at h hp
      cases i with
      | zero =>
        simp only [List.getElem?_cons_zero, Option.some.injEq] at hp
        exact ⟨joinWords c ++ " ", hp.symm⟩
      | succ i' =>
        rw [List.getElem?_cons_succ] at hp
        refine ih i' p ?_ hp
        simpa using Nat.lt_of_succ_lt_succ (by simpa using h)

/-! ## Claim C9 -/

set_option maxRecDepth 8192 in
/-- C9 counterexample: the page-size bound is not universal over input
texts.  A text whose first word is 200 characters long, followed by
another word, produces a non-final first page of 221 characters
(the oversized word plus the MORE suffix), exceeding the 160 limit —
the ellipsis fallback of spec §4.4 truncates only the final page. -/
theorem C9_counterexample :
    (paginate (String.mk (List.replicate 200 'a') ++ " b") 160)[0]? =
      some (String.mk (List.replicate 200 'a') ++ " " ++ MORE_SUFFIX) ∧
    160 < (String.mk (List.replicate 200 'a') ++ " " ++ MORE_SUFFIX).length ∧
    ∃ p ∈ paginate (String.mk (List.replicate 200 'a') ++ " b") 160,
      160 < p.length := by
  refine ⟨by decide, by decide, by decide⟩

/-- C9 amended: for every text whose words each fit on a page (length ≤ 139 =
160 − `"Reply MORE for next."`.length − 1), `paginate text 160` yields
pages of at most 160 characters; every non-final page ends with the
exact suffix `"Reply MORE for next."`; when the text overflows, the pages
are rendered chunk by chunk from a word-chunking whose concatenation is
exactly the original word sequence in order (so the pages' core texts,
without the suffix, reproduce the original words); and a text that
already fits yields the single page `[text]` with no suffix. -/
theorem C9_paginate_properties (text : String)
    (hw : ∀ w ∈ wordsOf text, w.length ≤ 139) :
    (∀ p ∈ paginate text 160, p.length ≤ 160) ∧
    (∀ i p, i + 1 < (paginate text 160).length →
      (paginate text 160)[i]? = some p → ∃ pre, p = pre ++ MORE_SUFFIX) ∧
    (160 < text.length →
      (chunkWords 139 (wordsOf text)).flatten = wordsOf text ∧
      paginate text 160 = renderPages 160 (chunkWords 139 (wordsOf text))) ∧
    (text.length ≤ 160 → paginate text 160 = [text]) := by
  have hbud : 160 - (MORE_SUFFIX.length + 1) = 139 := by decide
  by_cases hfits : text.length ≤ 160
  · have hp : paginate text 160 = [text] := by
      unfold paginate; rw [if_pos hfits]
    refine ⟨?_, ?_, fun hgt => absurd hfits (by omega), fun _ => hp⟩
    · intro p hpm
      rw [hp] at hpm
      simp only [List.mem_singleton] at hpm
      subst hpm; exact hfits
    · intro i p h _
      rw [hp] at h
      simp at h
  · have hp : paginate text 160 =
        renderPages 160 (chunkWords 139 (wordsOf text)) := by
      unfold paginate; rw [if_neg hfits, hbud]
    have hcb : ∀ c ∈ chunkWords 139 (wordsOf text),
        (joinWords c).length ≤ 160 - 21 :=
      chunkWords_core_bound 139 (wordsOf text) hw
    refine ⟨?_, ?_,
      fun _ => ⟨chunkWords_flatten 139 (wordsOf text), hp⟩,
      fun hle => absurd hle hfits⟩
    · intro p hpm
      rw [hp] at hpm
      exact renderPages_page_length 160 (by omega) _ hcb p hpm
    · intro i p h hip
      rw [hp] at h hip
      exact renderPages_nonfinal_suffix 160 _ i p h hip

/-- Witness for C9: a concrete 180-character text of short words. -/
theorem C9_paginate_properties_witness :
    (∀ p ∈ paginate ("The quick brown fox jumps over the lazy dog " ++
        "The quick brown fox jumps over the lazy dog " ++
        "The quick brown fox jumps over the lazy dog " ++
        "The quick brown fox jumps over the lazy dog") 160, p.length ≤ 160) ∧
    (∀ i p, i + 1 < (paginate ("The quick brown fox jumps over the lazy dog " ++
        "The quick brown fox jumps over the lazy dog " ++
        "The quick brown fox jumps over the lazy dog " ++
        "The quick brown fox jumps over the lazy dog") 160).length →
      (paginate ("The quick brown fox jumps over the lazy dog " ++
        "The quick brown fox jumps over the lazy dog " ++
        "The quick brown fox jumps over the lazy dog " ++
        "The quick brown fox jumps over the lazy dog") 160)[i]? = some p →
      ∃ pre, p = pre ++ MORE_SUFFIX) ∧
    (160 < ("The quick brown fox jumps over the lazy dog " ++
        "The quick brown fox jumps over the lazy dog " ++
        "The quick brown fox jumps over the lazy dog " ++
        "The quick brown fox jumps over the lazy dog").length →
      (chunkWords 139 (wordsOf ("The quick brown fox jumps over the lazy dog " ++
        "The quick brown fox jumps over the lazy dog " ++
        "The quick brown fox jumps over the lazy dog " ++
        "The quick brown fox jumps over the lazy dog"))).flatten =
        wordsOf ("The quick brown fox jumps over the lazy dog " ++
          "The quick brown fox jumps over the lazy dog " ++
          "The quick brown fox jumps over the lazy dog " ++
          "The quick brown fox jumps over the lazy dog") ∧
      paginate ("The quick brown fox jumps over the lazy dog " ++
        "The quick brown fox jumps over the lazy dog " ++
        "The quick brown fox jumps over the lazy dog " ++
        "The quick brown fox jumps over the lazy dog") 160 =
        renderPages 160 (chunkWords 139
          (wordsOf ("The quick brown fox jumps over the lazy dog " ++
            "The quick brown fox jumps over the lazy dog " ++
            "The quick brown fox jumps over the lazy dog " ++
            "The quick brown fox jumps over the lazy dog")))) ∧
    (("The quick brown fox jumps over the lazy dog " ++
        "The quick brown fox jumps over the lazy dog " ++
        "The quick brown fox jumps over the lazy dog " ++
        "The quick brown fox jumps over the lazy dog").length ≤ 160 →
      paginate ("The quick brown fox jumps over the lazy dog " ++
        "The quick brown fox jumps over the lazy dog " ++
        "The quick brown fox jumps over the lazy dog " ++
        "The quick brown fox jumps over the lazy dog") 160 =
      [("The quick brown fox jumps over the lazy dog " ++
        "The quick brown fox jumps over the lazy dog " ++
        "The quick brown fox jumps over the lazy dog " ++
        "The quick brown fox jumps over the lazy dog")]) :=
  C9_paginate_properties
    ("The quick brown fox jumps over the lazy dog " ++
      "The quick brown fox jumps over the lazy dog " ++
      "The quick brown fox jumps over the lazy dog " ++
      "The quick brown fox jumps over the lazy dog")
    (by decide)

end RTS
